import Mathlib

/-!
Verification of the FastAPI service in `app/api.py`.

The application registers two routes on a FastAPI instance:
  @app.get("/")            def home():         return {"msgs": "Welcome to my api."}
  @app.get("/api/health")  def health_check(): return {"status": "healthy"}

We embed the JSON values, the two handlers, the route table, and the
framework dispatch (exact path match; method mismatch on a matching path
gives the framework default 405; no matching path gives 404).
-/

namespace FastApiVercel

/-- A minimal JSON value type.  Every payload in this application is a flat
object whose values are strings, so objects map keys to strings. -/
inductive Json where
  | str : String → Json
  | obj : List (String × String) → Json
deriving DecidableEq, Repr

/-- Compact serialization of a JSON value, as FastAPI's JSONResponse emits
(no spaces after separators). -/
def Json.render : Json → String
  | .str s => "\"" ++ s ++ "\""
  | .obj kvs => "\x7b" ++ String.intercalate ","
      (kvs.map (fun kv => "\"" ++ kv.1 ++ "\":\"" ++ kv.2 ++ "\"")) ++ "\x7d"

/-- An HTTP request: the request line (method, path, query) plus headers and
body.  The application only ever reads `method` and `path`. -/
structure Request where
  method : String
  path : String
  query : String
  headers : List (String × String)
  body : String
deriving DecidableEq, Repr

/-- An HTTP response: status code and (rendered) JSON body. -/
structure Response where
  status : Nat
  body : String
deriving DecidableEq, Repr

/-- Identifier of the two application handlers registered in `api.py`. -/
inductive HandlerId where
  | home
  | healthCheck
deriving DecidableEq, Repr

/-- `def home(): return {"msgs": "Welcome to my api."}` -/
def home : Json := .obj [("msgs", "Welcome to my api.")]

/-- `def health_check(): return {"status": "healthy"}` -/
def health_check : Json := .obj [("status", "healthy")]

/-- Run a handler on a request.  Neither handler reads any part of the
request: each returns its literal payload. -/
def runHandler : HandlerId → Request → Json
  | .home, _ => home
  | .healthCheck, _ => health_check

/-- A registered route: HTTP method, exact path, handler. -/
structure Route where
  method : String
  path : String
  handler : HandlerId
deriving DecidableEq, Repr

/-- The route table built by the two `@app.get` decorators, in source order. -/
def appRoutes : List Route :=
  [⟨"GET", "/", .home⟩, ⟨"GET", "/api/health", .healthCheck⟩]

/-- First route whose path and method both match the request (full match). -/
def findFullMatch (routes : List Route) (req : Request) : Option Route :=
  routes.find? (fun rt => rt.path = req.path && rt.method = req.method)

/-- Whether some route matches the request path but not its method;
the framework then answers 405 Method Not Allowed. -/
def hasPartialMatch (routes : List Route) (req : Request) : Bool :=
  routes.any (fun rt => rt.path = req.path && rt.method ≠ req.method)

/-- FastAPI's default 404 body. -/
def notFoundBody : Json := .obj [("detail", "Not Found")]

/-- FastAPI's default 405 body. -/
def methodNotAllowedBody : Json := .obj [("detail", "Method Not Allowed")]

/-- Dispatch a request against a route table: on a full match, invoke the
handler and wrap its payload in a 200 response; on a path-only match return
the framework 405; otherwise the framework 404.  Also reports which
application handler, if any, was invoked. -/
def dispatch (routes : List Route) (req : Request) : Response × Option HandlerId :=
  match findFullMatch routes req with
  | some rt => (⟨200, (runHandler rt.handler req).render⟩, some rt.handler)
  | none =>
    if hasPartialMatch routes req then
      (⟨405, methodNotAllowedBody.render⟩, none)
    else
      (⟨404, notFoundBody.render⟩, none)

/-- Handle one request with the application's route table. -/
def handle (req : Request) : Response × Option HandlerId :=
  dispatch appRoutes req

/-- Application state: the route table held by the `app` object.  The module
has no other mutable state. -/
structure AppState where
  routes : List Route
deriving DecidableEq, Repr

/-- The state of `app` after module import: the two registered routes. -/
def initState : AppState := ⟨appRoutes⟩

/-- Process one request in a given application state: the handlers read and
write no variables outside their own body, so the state is returned
unchanged. -/
def step (s : AppState) (req : Request) : Response × AppState :=
  ((dispatch s.routes req).1, s)

/-- Process a list of requests in order, threading the state, and collect
the responses. -/
def run (s : AppState) : List Request → List Response
  | [] => []
  | req :: reqs =>
    let (resp, s₂) := step s req
    resp :: run s₂ reqs

/-- The application state reached after processing a list of requests. -/
def stateAfter (s : AppState) : List Request → AppState
  | [] => s
  | req :: reqs => stateAfter (step s req).2 reqs

/-- Processing requests never changes the application state. -/
theorem stateAfter_const (s : AppState) (l : List Request) :
    stateAfter s l = s := by
  induction l with
  | nil => rfl
  | cons req reqs ih => simpa [stateAfter, step] using ih

/-- C1: every GET request to the path "/" gets HTTP status 200 with a body
that is exactly the JSON object with single key "msgs" and value
"Welcome to my api.". -/
theorem C1_get_root (req : Request) (hm : req.method = "GET")
    (hp : req.path = "/") :
    (handle req).1.status = 200 ∧
    (handle req).1.body = "\x7b\"msgs\":\"Welcome to my api.\"\x7d" := by
  obtain ⟨m, p, q, h, b⟩ := req
  simp only at hm hp
  subst hm hp
  exact ⟨rfl, rfl⟩

/-- Witness for C1 at the concrete request GET "/". -/
theorem C1_get_root_witness :
    (handle ⟨"GET", "/", "", [], ""⟩).1.status = 200 ∧
    (handle ⟨"GET", "/", "", [], ""⟩).1.body =
      "\x7b\"msgs\":\"Welcome to my api.\"\x7d" :=
  C1_get_root ⟨"GET", "/", "", [], ""⟩ rfl rfl

/-- C2: every GET request to the path "/api/health" gets HTTP status 200
with a body that is exactly the JSON object with single key "status" and
value "healthy". -/
theorem C2_get_health (req : Request) (hm : req.method = "GET")
    (hp : req.path = "/api/health") :
    (handle req).1.status = 200 ∧
    (handle req).1.body = "\x7b\"status\":\"healthy\"\x7d" := by
  obtain ⟨m, p, q, h, b⟩ := req
  simp only at hm hp
  subst hm hp
  exact ⟨rfl, rfl⟩

/-- Witness for C2 at the concrete request GET "/api/health". -/
theorem C2_get_health_witness :
    (handle ⟨"GET", "/api/health", "", [], ""⟩).1.status = 200 ∧
    (handle ⟨"GET", "/api/health", "", [], ""⟩).1.body =
      "\x7b\"status\":\"healthy\"\x7d" :=
  C2_get_health ⟨"GET", "/api/health", "", [], ""⟩ rfl rfl

/-- C3: a GET request to any path other than "/" and "/api/health" gets the
framework 404 (a non-200 status) and no application handler is invoked. -/
theorem C3_get_unmatched (req : Request) (hm : req.method = "GET")
    (hp1 : req.path ≠ "/") (hp2 : req.path ≠ "/api/health") :
    (handle req).1.status = 404 ∧ (handle req).1.status ≠ 200 ∧
    (handle req).2 = none := by
  have hfull : findFullMatch appRoutes req = none := by
    simp [findFullMatch, appRoutes, List.find?, hp1.symm, hp2.symm]
  have hpart : hasPartialMatch appRoutes req = false := by
    simp [hasPartialMatch, appRoutes, hp1.symm, hp2.symm]
  simp [handle, dispatch, hfull, hpart]

/-- Witness for C3 at the concrete request GET "/nope". -/
theorem C3_get_unmatched_witness :
    (handle ⟨"GET", "/nope", "", [], ""⟩).1.status = 404 ∧
    (handle ⟨"GET", "/nope", "", [], ""⟩).1.status ≠ 200 ∧
    (handle ⟨"GET", "/nope", "", [], ""⟩).2 = none :=
  C3_get_unmatched ⟨"GET", "/nope", "", [], ""⟩ rfl (by decide) (by decide)

/-- C4: a POST request to "/" or to "/api/health" gets the framework 405
Method Not Allowed (a non-200 status), since only GET is registered for
those paths; no application handler is invoked. -/
theorem C4_post_registered_paths (req : Request) (hm : req.method = "POST")
    (hp : req.path = "/" ∨ req.path = "/api/health") :
    (handle req).1.status = 405 ∧ (handle req).1.status ≠ 200 ∧
    (handle req).2 = none := by
  have hfull : findFullMatch appRoutes req = none := by
    rcases hp with hp | hp <;>
      simp [findFullMatch, appRoutes, List.find?, hp, hm]
  have hpart : hasPartialMatch appRoutes req = true := by
    rcases hp with hp | hp <;>
      simp [hasPartialMatch, appRoutes, hp, hm]
  simp [handle, dispatch, hfull, hpart]

/-- Witness for C4 at the concrete request POST "/". -/
theorem C4_post_registered_paths_witness :
    (handle ⟨"POST", "/", "", [], ""⟩).1.status = 405 ∧
    (handle ⟨"POST", "/", "", [], ""⟩).1.status ≠ 200 ∧
    (handle ⟨"POST", "/", "", [], ""⟩).2 = none :=
  C4_post_registered_paths ⟨"POST", "/", "", [], ""⟩ rfl (Or.inl rfl)

/-- C5: the service is deterministic and stateless: a GET request to either
endpoint gets the same response whatever requests were processed before,
and processing a request leaves the state unchanged, so it does not change
the result of any later request. -/
theorem C5_deterministic (hist₁ hist₂ : List Request) (req : Request)
    (hm : req.method = "GET")
    (hp : req.path = "/" ∨ req.path = "/api/health") :
    (step (stateAfter initState hist₁) req).1 =
      (step (stateAfter initState hist₂) req).1 ∧
    stateAfter initState (hist₁ ++ [req]) = stateAfter initState hist₁ := by
  constructor
  · rw [stateAfter_const, stateAfter_const]
  · rw [stateAfter_const, stateAfter_const]

/-- Witness for C5: one history empty, one with a prior request. -/
theorem C5_deterministic_witness :
    (step (stateAfter initState []) ⟨"GET", "/", "", [], ""⟩).1 =
      (step (stateAfter initState [⟨"POST", "/x", "", [], ""⟩])
        ⟨"GET", "/", "", [], ""⟩).1 ∧
    stateAfter initState ([] ++ [⟨"GET", "/", "", [], ""⟩]) =
      stateAfter initState [] :=
  C5_deterministic [] [⟨"POST", "/x", "", [], ""⟩] ⟨"GET", "/", "", [], ""⟩
    rfl (Or.inl rfl)

/-- C6: noninterference with request data: the responses of GET "/" and of
GET "/api/health" do not depend on the query string, the headers, or the
request body. -/
theorem C6_noninterference (q₁ b₁ q₂ b₂ : String)
    (h₁ h₂ : List (String × String)) :
    handle ⟨"GET", "/", q₁, h₁, b₁⟩ = handle ⟨"GET", "/", q₂, h₂, b₂⟩ ∧
    handle ⟨"GET", "/api/health", q₁, h₁, b₁⟩ =
      handle ⟨"GET", "/api/health", q₂, h₂, b₂⟩ :=
  ⟨rfl, rfl⟩

/-- C7: neither handler can fail: whenever an application handler is
invoked for a request, the response status is 200 — the handlers contain no
fallible operation, so no error branch exists to reach. -/
theorem C7_handlers_total (req : Request) (hid : HandlerId)
    (h : (handle req).2 = some hid) :
    (handle req).1.status = 200 := by
  unfold handle dispatch at h ⊢
  cases hfm : findFullMatch appRoutes req with
  | some rt => rfl
  | none =>
    rw [hfm] at h
    by_cases hpm : hasPartialMatch appRoutes req = true
    · rw [if_pos hpm] at h
      exact absurd h (by simp)
    · rw [if_neg hpm] at h
      exact absurd h (by simp)

/-- Witness for C7 at the concrete request GET "/". -/
theorem C7_handlers_total_witness :
    (handle ⟨"GET", "/", "", [], ""⟩).1.status = 200 :=
  C7_handlers_total ⟨"GET", "/", "", [], ""⟩ .home rfl

/-- C8: frame property: handling any request in any application state
leaves the state unchanged, and the initial state registers exactly the two
routes GET "/" and GET "/api/health". -/
theorem C8_frame (s : AppState) (req : Request) :
    (step s req).2 = s ∧
    initState.routes =
      [⟨"GET", "/", .home⟩, ⟨"GET", "/api/health", .healthCheck⟩] :=
  ⟨rfl, rfl⟩

/-- C9: routing is an exact path match: GET "/api/health" is handled by
health_check and never by home, although "/" is a string prefix of
"/api/health"; GET "/" is handled by home and never by health_check. -/
theorem C9_exact_path_dispatch (req : Request) (hm : req.method = "GET") :
    (req.path = "/api/health" → (handle req).2 = some .healthCheck ∧
      (handle req).2 ≠ some .home) ∧
    (req.path = "/" → (handle req).2 = some .home ∧
      (handle req).2 ≠ some .healthCheck) := by
  obtain ⟨m, p, q, h, b⟩ := req
  simp only at hm
  subst hm
  constructor
  · intro hp
    simp only at hp
    subst hp
    refine ⟨rfl, fun hc => ?_⟩
    rw [show (handle ⟨"GET", "/api/health", q, h, b⟩).2 =
        some HandlerId.healthCheck from rfl] at hc
    exact HandlerId.noConfusion (Option.some.inj hc)
  · intro hp
    simp only at hp
    subst hp
    refine ⟨rfl, fun hc => ?_⟩
    rw [show (handle ⟨"GET", "/", q, h, b⟩).2 =
        some HandlerId.home from rfl] at hc
    exact HandlerId.noConfusion (Option.some.inj hc)

/-- Witness for C9 at the concrete requests GET "/api/health" and GET "/". -/
theorem C9_exact_path_dispatch_witness :
    ((handle ⟨"GET", "/api/health", "", [], ""⟩).2 = some .healthCheck ∧
      (handle ⟨"GET", "/api/health", "", [], ""⟩).2 ≠ some .home) ∧
    ((handle ⟨"GET", "/", "", [], ""⟩).2 = some .home ∧
      (handle ⟨"GET", "/", "", [], ""⟩).2 ≠ some .healthCheck) :=
  ⟨(C9_exact_path_dispatch ⟨"GET", "/api/health", "", [], ""⟩ rfl).1 rfl,
   (C9_exact_path_dispatch ⟨"GET", "/", "", [], ""⟩ rfl).2 rfl⟩

/-- C10: both handlers terminate unconditionally: on every invocation each
returns its single literal payload. -/
theorem C10_handlers_terminate (req : Request) :
    runHandler .home req = Json.obj [("msgs", "Welcome to my api.")] ∧
    runHandler .healthCheck req = Json.obj [("status", "healthy")] :=
  ⟨rfl, rfl⟩

end FastApiVercel
